import Mathlib

/-!
Verification development for the `ctrlxai-eff-demo` adapter pipeline.

Shallow embedding of the two source files:
  * `eff/adapters_v1.py` — feature extraction from free text, scenario
    list-to-map conversion, and the bundle adapter
    `adapt_internal_bundle_to_v1`.
  * `app/streamlit_app.py` — the schema detector `is_v1` and the
    adaptation entry point `to_v1`.

JSON documents are modelled by the inductive type `JVal`; Python dicts by
insertion-ordered association lists with unique keys.  Python exceptions
(`AttributeError` on `.get` of a non-dict, `TypeError` on `str.join` of a
non-string element, `AttributeError` on `.strip` of a non-string) are
modelled by `Option`: `none` means the Python code raises.  JSON numbers
are modelled as exact rationals (binary floating point rounding is not
modelled; no property below depends on it).  Character classes (`\w`,
`\s`, case folding) are modelled on the ASCII range, which covers every
string the properties below exercise.
-/

namespace EffDemo

/-- A JSON value as `json.loads` produces it: `None`, booleans, numbers,
strings, lists and string-keyed dicts (insertion-ordered). -/
inductive JVal where
  | null : JVal
  | bool : Bool → JVal
  | num : Rat → JVal
  | str : String → JVal
  | arr : List JVal → JVal
  | obj : List (String × JVal) → JVal

/-- A Python `Dict[str, Any]` as an insertion-ordered association list. -/
abbrev Dict := List (String × JVal)

/-- `d.get(k, default)` on a genuine dict: first binding wins (keys are
unique in dicts built by `json.loads`). -/
def dictGetD (kvs : Dict) (k : String) (d : JVal) : JVal :=
  match kvs with
  | [] => d
  | (k', v) :: rest => if k' == k then v else dictGetD rest k d

/-- `k in d` style lookup returning `Option`. -/
def dictGet (kvs : Dict) (k : String) : Option JVal :=
  match kvs with
  | [] => none
  | (k', v) :: rest => if k' == k then some v else dictGet rest k

/-- `d[k] = v` on a Python dict: overwrite in place keeps the original
insertion position; a new key is appended. -/
def dictInsert (kvs : Dict) (k : String) (v : JVal) : Dict :=
  match kvs with
  | [] => [(k, v)]
  | (k', v') :: rest =>
      if k' == k then (k, v) :: rest else (k', v') :: dictInsert rest k v

/-- Python truthiness of a JSON value: `None`, `False`, `0`, `""`, `[]`
and `{}` are falsy, everything else truthy. -/
def truthy : JVal → Bool
  | .null => false
  | .bool b => b
  | .num q => !(q == 0)
  | .str s => !(s == "")
  | .arr xs => !xs.isEmpty
  | .obj kvs => !kvs.isEmpty

/-- `isinstance(v, dict)`. -/
def isObjB : JVal → Bool
  | .obj _ => true
  | _ => false

/-- `isinstance(v, str)`. -/
def isStrB : JVal → Bool
  | .str _ => true
  | _ => false

/-- `v.get(k, d)` where `v` may not be a dict: raises (`none`) unless `v`
is a dict. -/
def pyGetD (v : JVal) (k : String) (d : JVal) : Option JVal :=
  match v with
  | .obj kvs => some (dictGetD kvs k d)
  | _ => none

/-- `v.get(k)` (default `None`), raising unless `v` is a dict. -/
def pyGet (v : JVal) (k : String) : Option JVal :=
  pyGetD v k .null

/-- Total variant of `.get` used only to STATE properties: a non-dict
yields the default instead of raising. -/
def objGetD (v : JVal) (k : String) (d : JVal) : JVal :=
  match v with
  | .obj kvs => dictGetD kvs k d
  | _ => d

/-- Python `a or b` on computations that may raise: evaluate `a`; if it
raises, propagate; if truthy, short-circuit; else evaluate `b`. -/
def pyOr (a b : Option JVal) : Option JVal :=
  a.bind fun x => if truthy x then some x else b

/-- Python `a or b` on plain values. -/
def pyOrV (a b : JVal) : JVal :=
  if truthy a then a else b

/-! ### Character and string helpers (ASCII fragment of Python `str`) -/

/-- The regex class `[\w_]` (ASCII fragment): letters, digits, underscore. -/
def isWordChar (c : Char) : Bool :=
  c.isAlphanum || c == '_'

/-- The regex class `\s` (ASCII fragment): space, tab, newline, carriage
return, vertical tab, form feed. -/
def isSpaceChar (c : Char) : Bool :=
  c == ' ' || c == '\t' || c == '\n' || c == '\r' ||
  c == Char.ofNat 11 || c == Char.ofNat 12

/-- ASCII lower-casing of one character (fragment of `str.lower` /
`re.IGNORECASE` folding). -/
def asciiLowerChar (c : Char) : Char :=
  if 'A' ≤ c ∧ c ≤ 'Z' then Char.ofNat (c.toNat + 32) else c

/-- ASCII fragment of `str.lower`. -/
def asciiLower (s : String) : String :=
  ⟨s.data.map asciiLowerChar⟩

/-- `str.strip()` on the character list. -/
def stripChars (cs : List Char) : List Char :=
  ((cs.dropWhile isSpaceChar).reverse.dropWhile isSpaceChar).reverse

/-- `str.strip()`. -/
def pyStrip (s : String) : String :=
  ⟨stripChars s.data⟩

/-- The single-quote character, used by Python `repr` of strings. -/
def squote : String := ⟨[Char.ofNat 39]⟩

/-- The backtick character appearing in the first numeric pattern. -/
def btick : Char := Char.ofNat 96

/-- Decimal digits to a natural number. -/
def digitsToNat (ds : List Char) : Nat :=
  ds.foldl (fun n c => n * 10 + (c.toNat - 48)) 0

/-- Decimal rendering of a rational whose denominator divides a power of
ten — the exact-value fragment of Python `str` on numbers.  (CPython's
shortest-roundtrip float repr is not modelled; no claim depends on it.) -/
def ratStr (q : Rat) : String :=
  if q.den == 1 then toString q.num
  else
    match (List.range 40).find? (fun k => q.den ∣ 10 ^ k) with
    | some k =>
        let scaled := q.num.natAbs * (10 ^ k / q.den)
        let digits := Nat.toDigits 10 scaled
        let digits := if digits.length < k + 1 then
            List.replicate (k + 1 - digits.length) '0' ++ digits else digits
        let intPart : String := ⟨digits.take (digits.length - k)⟩
        let fracPart : String := ⟨digits.drop (digits.length - k)⟩
        (if q.num < 0 then "-" else "") ++ intPart ++ "." ++ fracPart
    | none => toString q.num ++ "/" ++ toString q.den

mutual

/-- Python `repr` of a JSON value (string escaping inside `repr` of a
string is not modelled; no claim exercises it). -/
def pyRepr : JVal → String
  | .null => "None"
  | .bool true => "True"
  | .bool false => "False"
  | .num q => ratStr q
  | .str s => squote ++ s ++ squote
  | .arr xs => "[" ++ pyReprElems xs ++ "]"
  | .obj kvs => "\x7b" ++ pyReprPairs kvs ++ "\x7d"

/-- Comma-separated `repr`s of list elements. -/
def pyReprElems : List JVal → String
  | [] => ""
  | [x] => pyRepr x
  | x :: y :: rest => pyRepr x ++ ", " ++ pyReprElems (y :: rest)

/-- Comma-separated `repr`s of dict items. -/
def pyReprPairs : List (String × JVal) → String
  | [] => ""
  | [(k, v)] => squote ++ k ++ squote ++ ": " ++ pyRepr v
  | (k, v) :: p :: rest =>
      squote ++ k ++ squote ++ ": " ++ pyRepr v ++ ", " ++ pyReprPairs (p :: rest)

end

/-- Python `str` of a JSON value: identity on strings, `repr` elsewhere. -/
def pyStr : JVal → String
  | .str s => s
  | v => pyRepr v

/-! ### The regex patterns of `eff/adapters_v1.py`

`_NUM = r"[-+]?\d*\.?\d+"`, three numeric patterns and two boolean
patterns, all compiled with `re.IGNORECASE` and applied with `.search`
(leftmost match).  Each pattern is a sequence of character-class runs
(`[\w_]+`, `\s+`, `\s*`), fixed letters and the `_NUM` token; since no
run's class overlaps the first character of what follows it, Python's
greedy backtracking engine accepts at a given start position exactly when
taking every run maximal succeeds, which is how the matchers below are
written.  A matcher returns the two captures `(k, v)`. -/

/-- The token `[-+]?\d*\.?\d+` at the head of the input, with Python's
backtracking semantics: an optional sign, then either
`digits [. digits]` (fraction kept only when at least one digit follows
the dot) or `.digits`.  Returns the matched characters and the rest. -/
def matchNum (cs : List Char) : Option (List Char × List Char) :=
  let sgnSplit : List Char × List Char :=
    match cs with
    | c :: rest => if c == '-' || c == '+' then ([c], rest) else ([], cs)
    | [] => ([], [])
  let sgn := sgnSplit.1
  let cs1 := sgnSplit.2
  let d1 := cs1.takeWhile Char.isDigit
  let cs2 := cs1.dropWhile Char.isDigit
  match cs2 with
  | c :: rest =>
      if c == '.' then
        let d2 := rest.takeWhile Char.isDigit
        let cs3 := rest.dropWhile Char.isDigit
        if d2.isEmpty then
          if d1.isEmpty then none else some (sgn ++ d1, cs2)
        else some (sgn ++ d1 ++ [c] ++ d2, cs3)
      else if d1.isEmpty then none else some (sgn ++ d1, cs2)
  | [] => if d1.isEmpty then none else some (sgn ++ d1, [])

/-- Case-insensitive literal match at the head of the input (`pat` is
given lower-case); returns the actually consumed characters and the
rest. -/
def matchCIKeep (pat : List Char) (cs : List Char) : Option (List Char × List Char) :=
  match pat, cs with
  | [], rest => some ([], rest)
  | p :: ps, c :: rest =>
      if asciiLowerChar c == p then
        (matchCIKeep ps rest).map (fun pr => (c :: pr.1, pr.2))
      else none
  | _ :: _, [] => none

/-- The alternation `true|false` (case-insensitive, `true` tried first as
in the pattern source). -/
def matchBoolTok (cs : List Char) : Option (List Char × List Char) :=
  match matchCIKeep ['t', 'r', 'u', 'e'] cs with
  | some r => some r
  | none => matchCIKeep ['f', 'a', 'l', 's', 'e'] cs

/-- A compiled pattern, as the function matching it at one position. -/
abbrev MatcherT := List Char → Option (List Char × List Char)

/-- Pattern `` `(?P<k>[\w_]+)`\s+is\s+(?P<v>_NUM)`` at one position. -/
def p1At : MatcherT := fun cs =>
  match cs with
  | c :: cs1 =>
      if c == btick then
        let k := cs1.takeWhile isWordChar
        let cs2 := cs1.dropWhile isWordChar
        if k.isEmpty then none else
        match cs2 with
        | c2 :: cs3 =>
            if c2 == btick then
              let ws := cs3.takeWhile isSpaceChar
              let cs4 := cs3.dropWhile isSpaceChar
              if ws.isEmpty then none else
              match matchCIKeep ['i', 's'] cs4 with
              | some (_, cs5) =>
                  let ws2 := cs5.takeWhile isSpaceChar
                  let cs6 := cs5.dropWhile isSpaceChar
                  if ws2.isEmpty then none else
                  match matchNum cs6 with
                  | some (v, _) => some (k, v)
                  | none => none
              | none => none
            else none
        | [] => none
      else none
  | [] => none

/-- Pattern `(?P<k>[\w_]+)\s*:\s*(?P<v>_NUM)` at one position. -/
def p2At : MatcherT := fun cs =>
  let k := cs.takeWhile isWordChar
  let cs1 := cs.dropWhile isWordChar
  if k.isEmpty then none else
  let cs2 := cs1.dropWhile isSpaceChar
  match cs2 with
  | c :: cs3 =>
      if c == ':' then
        let cs4 := cs3.dropWhile isSpaceChar
        match matchNum cs4 with
        | some (v, _) => some (k, v)
        | none => none
      else none
  | [] => none

/-- Pattern `(?P<k>[\w_]+)\s+is\s+(?P<v>_NUM)` at one position. -/
def p3At : MatcherT := fun cs =>
  let k := cs.takeWhile isWordChar
  let cs1 := cs.dropWhile isWordChar
  if k.isEmpty then none else
  let ws := cs1.takeWhile isSpaceChar
  let cs2 := cs1.dropWhile isSpaceChar
  if ws.isEmpty then none else
  match matchCIKeep ['i', 's'] cs2 with
  | some (_, cs3) =>
      let ws2 := cs3.takeWhile isSpaceChar
      let cs4 := cs3.dropWhile isSpaceChar
      if ws2.isEmpty then none else
      match matchNum cs4 with
      | some (v, _) => some (k, v)
      | none => none
  | none => none

/-- Pattern `(?P<k>[\w_]+)\s+is\s+(?P<v>true|false)` at one position. -/
def b1At : MatcherT := fun cs =>
  let k := cs.takeWhile isWordChar
  let cs1 := cs.dropWhile isWordChar
  if k.isEmpty then none else
  let ws := cs1.takeWhile isSpaceChar
  let cs2 := cs1.dropWhile isSpaceChar
  if ws.isEmpty then none else
  match matchCIKeep ['i', 's'] cs2 with
  | some (_, cs3) =>
      let ws2 := cs3.takeWhile isSpaceChar
      let cs4 := cs3.dropWhile isSpaceChar
      if ws2.isEmpty then none else
      match matchBoolTok cs4 with
      | some (v, _) => some (k, v)
      | none => none
  | none => none

/-- Pattern `(?P<k>[\w_]+)\s*:\s*(?P<v>true|false)` at one position. -/
def b2At : MatcherT := fun cs =>
  let k := cs.takeWhile isWordChar
  let cs1 := cs.dropWhile isWordChar
  if k.isEmpty then none else
  let cs2 := cs1.dropWhile isSpaceChar
  match cs2 with
  | c :: cs3 =>
      if c == ':' then
        let cs4 := cs3.dropWhile isSpaceChar
        match matchBoolTok cs4 with
        | some (v, _) => some (k, v)
        | none => none
      else none
  | [] => none

/-- `pattern.search(s)`: try the matcher at each position left to right,
first success wins. -/
def searchM (m : MatcherT) : List Char → Option (List Char × List Char)
  | [] => m []
  | c :: cs =>
      match m (c :: cs) with
      | some r => some r
      | none => searchM m cs

/-- `_PATTERNS`, in source order. -/
def PATTERNS : List MatcherT := [p1At, p2At, p3At]

/-- `_BOOL_PATTERNS`, in source order. -/
def BOOL_PATTERNS : List MatcherT := [b1At, b2At]

/-- `float(v)` on a token captured by `_NUM` (Python `float` accepts a
wider grammar, but `_try_add` only ever feeds it `_NUM` captures). -/
def parseFloat (cs : List Char) : Option Rat :=
  let sgnSplit : Bool × List Char :=
    match cs with
    | c :: rest =>
        if c == '-' then (true, rest)
        else if c == '+' then (false, rest) else (false, cs)
    | [] => (false, [])
  let neg := sgnSplit.1
  let cs1 := sgnSplit.2
  let d1 := cs1.takeWhile Char.isDigit
  let cs2 := cs1.dropWhile Char.isDigit
  match cs2 with
  | [] =>
      if d1.isEmpty then none
      else
        let n : Int := digitsToNat d1
        some (mkRat (if neg then -n else n) 1)
  | c :: rest =>
      if c == '.' then
        let d2 := rest.takeWhile Char.isDigit
        let cs3 := rest.dropWhile Char.isDigit
        if cs3.isEmpty && !(d1.isEmpty && d2.isEmpty) then
          let n : Int := digitsToNat (d1 ++ d2)
          some (mkRat (if neg then -n else n) (10 ^ d2.length))
        else none
      else none

/-- `_try_add` of `_extract_features_from_text_lists`: strip the key,
drop it when empty, replace spaces by underscores, store a boolean when
the value lower-cases to `true`/`false`, else the `float` of the value
(silently dropping the entry when the conversion fails). -/
def tryAdd (feats : Dict) (k v : List Char) : Dict :=
  let k := stripChars k
  if k.isEmpty then feats
  else
    let k := k.map (fun c => if c == ' ' then '_' else c)
    let vl := v.map asciiLowerChar
    if vl == ['t', 'r', 'u', 'e'] then dictInsert feats ⟨k⟩ (.bool true)
    else if vl == ['f', 'a', 'l', 's', 'e'] then dictInsert feats ⟨k⟩ (.bool false)
    else
      match parseFloat v with
      | some q => dictInsert feats ⟨k⟩ (.num q)
      | none => feats

/-- One `m.search(s)`-and-`_try_add` step of the extraction loops. -/
def applyPattern (feats : Dict) (m : MatcherT) (cs : List Char) : Dict :=
  match searchM m cs with
  | some (k, v) => tryAdd feats k v
  | none => feats

/-- The body of the `for s in items` loop: strip the item, then apply
the two boolean patterns, then the three numeric patterns, each by
`.search`, accumulating into `feats`. -/
def processItem (feats : Dict) (s : String) : Dict :=
  let cs := stripChars s.data
  let feats := BOOL_PATTERNS.foldl (fun f bp => applyPattern f bp cs) feats
  PATTERNS.foldl (fun f p => applyPattern f p cs) feats

/-- `_extract_features_from_text_lists(*lists)`: skip falsy arguments,
treat a string as a one-item list, coerce list elements with `str`,
skip any other type, and fold the per-item step over all items in input
order. -/
def extract_features_from_text_lists (lists : List JVal) : Dict :=
  lists.foldl
    (fun feats L =>
      if !truthy L then feats
      else
        match L with
        | .str s => processItem feats s
        | .arr xs => (xs.map pyStr).foldl processItem feats
        | _ => feats)
    []

/-! ### `_scenarios_list_to_dict` -/

/-- The normalized record built for one kept scenario entry
(source lines 86–91). -/
def scenarioRecordFields (kvs : Dict) : JVal :=
  .obj [
    ("earnings_direction", dictGetD kvs "earnings_direction" (.str "—")),
    ("confidence", pyOrV (dictGetD kvs "confidence" .null) (.str "—")),
    ("primary_drivers", pyOrV (dictGetD kvs "primary_drivers" (.arr [])) (.arr [])),
    ("explanation", pyOrV (dictGetD kvs "description" (.str "")) (.str ""))]

/-- One iteration of the `for s in scenarios_list` loop: skip a non-dict
entry, compute `name = (s.get("scenario") or "").strip().lower()` —
which raises (`none`) when the `or` yields a truthy non-string — skip an
empty name, and write the normalized record under `name` (overwriting an
earlier one). -/
def scenarioStep (acc : Dict) (s : JVal) : Option Dict :=
  match s with
  | .obj kvs =>
      match pyOrV (dictGetD kvs "scenario" .null) (.str "") with
      | .str raw =>
          let name := asciiLower (pyStrip raw)
          if name == "" then some acc
          else some (dictInsert acc name (scenarioRecordFields kvs))
      | _ => none
  | _ => some acc

/-- The `for s in scenarios_list` loop. -/
def scenariosGo (acc : Dict) : List JVal → Option Dict
  | [] => some acc
  | s :: rest => (scenarioStep acc s).bind fun acc2 => scenariosGo acc2 rest

/-- `_scenarios_list_to_dict(scenarios_list)`: an empty dict for any
non-list argument, else the loop above. -/
def scenarios_list_to_dict (scenarios_list : JVal) : Option Dict :=
  match scenarios_list with
  | .arr xs => scenariosGo [] xs
  | _ => some []

/-! ### `adapt_internal_bundle_to_v1` -/

/-- `final_out.get(k, {}) or {}` — the section defaulting of source
lines 101–105. -/
def sectionOf (fo : Dict) (k : String) : JVal :=
  let v := dictGetD fo k (.obj [])
  if truthy v then v else .obj []

/-- `(narrative.get("diagnostics") or {}) if isinstance(narrative, dict)
else {}` (source line 115). -/
def diagOf (narrative : JVal) : JVal :=
  match narrative with
  | .obj kvs =>
      let v := dictGetD kvs "diagnostics" .null
      if truthy v then v else .obj []
  | _ => .obj []

/-- The `business_id` fallback chain (source lines 107–113), with
Python's left-to-right short-circuit evaluation: later `.get` calls are
not evaluated (hence cannot raise) once a truthy candidate is found. -/
def resolveBusinessId (fo : Dict) (scenarios_obj narrative demand : JVal) :
    Option JVal :=
  pyOr (some (dictGetD fo "business_id" .null))
    (pyOr (pyGet scenarios_obj "business_id")
      (pyOr (pyGet narrative "business_id")
        (pyOr (pyGet demand "business_id") (some (.str "—")))))

/-- The `posture` fallback chain (source lines 116–120). -/
def resolvePosture (scenarios_obj diag : JVal) : Option JVal :=
  pyOr (pyGet scenarios_obj "posture")
    (pyOr (pyGet diag "earnings_posture_rule_result") (some (.str "Unknown")))

/-- The `confidence` fallback chain (source lines 121–125). -/
def resolveConfidence (narrative diag : JVal) : Option JVal :=
  pyOr (pyGet narrative "confidence_level")
    (pyOr (pyGet diag "confidence_level_rule_result") (some (.str "unknown")))

/-- The headline f-string (source line 129): posture plus a period, with
a capacity-reality clause appended when `cap_reality` is truthy. -/
def mkHeadline (posture cap_reality : JVal) : String :=
  pyStr posture ++ "." ++
    (if truthy cap_reality then " Capacity reality: " ++ pyStr cap_reality ++ "."
     else "")

/-- The `summary` fallback chain (source lines 132–136). -/
def resolveSummary (narrative : JVal) : Option JVal :=
  pyOr (pyGet narrative "base_case_summary")
    (pyOr (pyGet narrative "future_earnings_profile") (some (.str "")))

/-- The arguments of `"; ".join`: every element must be a string, else
Python raises `TypeError` (`none`). -/
def strList : List JVal → Option (List String)
  | [] => some []
  | .str s :: rest => (strList rest).map (fun r => s :: r)
  | _ => none

/-- `sep.join(xs)`. -/
def joinStrs (sep : String) (xs : List JVal) : Option String :=
  (strList xs).map (String.intercalate sep)

/-- One driver entry (the common shape of source lines 140–141 and
142–143): when the field value is a non-empty list, one entry made of the
label and the `"; "`-joined elements (raising on a non-string element),
else no entry. -/
def driverEntry (label : String) (v : JVal) : Option (List JVal) :=
  match v with
  | .arr xs =>
      if xs.isEmpty then some []
      else (joinStrs "; " xs).map (fun j => [JVal.str (label ++ j)])
  | _ => some []

/-- The `drivers` construction (source lines 139–143): one joined entry
per non-empty list-typed `upside_conditions` / `downside_risks`, in that
order. -/
def buildDrivers (narrative : JVal) : Option (List JVal) :=
  (pyGet narrative "upside_conditions").bind fun uc =>
  (driverEntry "Upside conditions: " uc).bind fun up =>
  (pyGet narrative "downside_risks").bind fun dc =>
  (driverEntry "Downside risks: " dc).bind fun down =>
  some (up ++ down)

/-- The explainability features (source lines 150–156): keep a structured
`features` value when it is a non-empty dict, else extract from the three
`key_factors` fields. -/
def computeFeats (fo : Dict) (demand capacity risk : JVal) : Option JVal :=
  let feats := dictGetD fo "features" .null
  if isObjB feats && truthy feats then some feats
  else
    (pyGet demand "key_factors").bind fun kd =>
    (pyGet capacity "key_factors").bind fun kc =>
    (pyGet risk "key_factors").bind fun kr =>
    some (.obj (extract_features_from_text_lists [kd, kc, kr]))

/-- The four `rules_fired` f-strings (source lines 159–164). -/
def rulesFired (diag : JVal) : Option (List JVal) :=
  (pyGet diag "demand_certainty").bind fun v1 =>
  (pyGet diag "capacity_reality").bind fun v2 =>
  (pyGet diag "earnings_posture_rule_result").bind fun v3 =>
  (pyGet diag "confidence_level_rule_result").bind fun v4 =>
  some [JVal.str ("demand_certainty: " ++ pyStr v1),
        JVal.str ("capacity_reality: " ++ pyStr v2),
        JVal.str ("earnings_posture: " ++ pyStr v3),
        JVal.str ("confidence: " ++ pyStr v4)]

/-- `adapt_internal_bundle_to_v1(final_out)`, with the source's
evaluation order preserved bind by bind (so a raise — `none` — happens
at the same point it would in Python). -/
def adapt_internal_bundle_to_v1 (final_out : Dict) : Option JVal :=
  let demand := sectionOf final_out "demand"
  let capacity := sectionOf final_out "capacity"
  let risk := sectionOf final_out "risk"
  let narrative := sectionOf final_out "narrative"
  let scenarios_obj := sectionOf final_out "scenarios"
  (resolveBusinessId final_out scenarios_obj narrative demand).bind fun business_id =>
  let diag := diagOf narrative
  (resolvePosture scenarios_obj diag).bind fun posture =>
  (resolveConfidence narrative diag).bind fun confidence =>
  (pyGet diag "capacity_reality").bind fun cap_reality =>
  let headline := mkHeadline posture cap_reality
  (resolveSummary narrative).bind fun summary =>
  (buildDrivers narrative).bind fun drivers =>
  (pyGetD scenarios_obj "scenarios" (.arr [])).bind fun sl =>
  (scenarios_list_to_dict sl).bind fun scenarios_dict =>
  (computeFeats final_out demand capacity risk).bind fun feats =>
  (rulesFired diag).bind fun rules_fired =>
  some (.obj [
    ("schema_version", .str "eff_assessment_v1"),
    ("business_id", business_id),
    ("window_weeks", dictGetD final_out "window_weeks" (.num 8)),
    ("posture", posture),
    ("confidence", confidence),
    ("headline", .str headline),
    ("signals", .obj [("demand", demand), ("capacity", capacity), ("risk", risk)]),
    ("scenarios", .obj scenarios_dict),
    ("narrative", .obj [("summary", summary), ("drivers", .arr drivers)]),
    ("explainability", .obj [("features", feats)]),
    ("diagnostics", .obj [("rules_fired", .arr rules_fired), ("flags", .obj [])])])

/-! ### `is_v1` and `to_v1` (from `app/streamlit_app.py`) -/

/-- `is_v1(payload)`: `payload.get("schema_version") ==
"eff_assessment_v1"`.  Python `==` against a string literal is true
exactly for an equal string. -/
def is_v1 (payload : Dict) : Bool :=
  match dictGetD payload "schema_version" .null with
  | .str s => s == "eff_assessment_v1"
  | _ => false

/-- `to_v1(payload)`: the payload itself when already canonical, else the
adapted bundle. -/
def to_v1 (payload : Dict) : Option JVal :=
  if is_v1 payload then some (.obj payload) else adapt_internal_bundle_to_v1 payload

/-- Navigation through nested dicts, used to state properties of the
adapter's output. -/
def jpath (v : JVal) : List String → Option JVal
  | [] => some v
  | k :: ks =>
      match v with
      | .obj kvs =>
          match dictGet kvs k with
          | some w => jpath w ks
          | none => none
      | _ => none

/-- The adapter's output at a path (for stating concrete examples). -/
def adaptPath (fo : Dict) (ks : List String) : Option JVal :=
  (adapt_internal_bundle_to_v1 fo).bind fun out => jpath out ks

/-! ### Specification-side definitions

These restate rules in the spec's words; theorems below compare them
with the implementation. -/

/-- Spec §4.2: an ordered candidate list where "the first
present-and-truthy one wins, else a fixed default". -/
def firstTruthyD (cands : List JVal) (dflt : JVal) : JVal :=
  match cands with
  | [] => dflt
  | c :: rest => if truthy c then c else firstTruthyD rest dflt

/-- Spec §4.3, restated, one record: skip a non-mapping entry, key a kept
record by its lower-cased trimmed `scenario` name, drop it when the name
is empty, overwrite on duplicates.  (A truthy non-string name simply
skips the record here, where the implementation raises.) -/
def scenarioSpecStep (acc : Dict) (r : JVal) : Dict :=
  match r with
  | .obj kvs =>
      match pyOrV (dictGetD kvs "scenario" .null) (.str "") with
      | .str raw =>
          let name := asciiLower (pyStrip raw)
          if name == "" then acc
          else dictInsert acc name (scenarioRecordFields kvs)
      | _ => acc
  | _ => acc

/-- Spec §4.3, restated: iterate records in the given order. -/
def scenariosSpec (xs : List JVal) : Dict :=
  xs.foldl scenarioSpecStep []

/-! ### Guard predicates

`adapt_internal_bundle_to_v1` raises on some well-formed mappings (see
the counterexample below); `adaptGuard` is the decidable condition under
which it provably returns. -/

/-- A value that flows into `"; ".join` when it is a list: all of its
elements must be strings or Python raises. -/
def allStrsOrNotList (v : JVal) : Bool :=
  match v with
  | .arr xs => xs.all isStrB
  | _ => true

/-- A list-typed narrative field reaches `"; ".join`, which raises on a
non-string element. -/
def guardedStrsField (na : JVal) (k : String) : Bool :=
  allStrsOrNotList (objGetD na k .null)

/-- A mapping entry of the scenarios list must carry a string-or-falsy
`scenario` field, else `.strip()` raises. -/
def scenarioNameOk (r : JVal) : Bool :=
  match r with
  | .obj kvs => isStrB (pyOrV (dictGetD kvs "scenario" .null) (.str ""))
  | _ => true

/-- Guard for the whole scenarios list. -/
def guardedScenariosList (sl : JVal) : Bool :=
  match sl with
  | .arr xs => xs.all scenarioNameOk
  | _ => true

/-- The guard under which the adapter provably returns normally: each of
the five defaulted sections is a mapping (i.e. its raw value was not a
truthy non-mapping), the defaulted diagnostics is a mapping, the two
narrative driver lists hold only strings when they are lists, and each
scenario record's name is a string or falsy. -/
def adaptGuard (fo : Dict) : Bool :=
  isObjB (sectionOf fo "demand") && isObjB (sectionOf fo "capacity") &&
  isObjB (sectionOf fo "risk") && isObjB (sectionOf fo "narrative") &&
  isObjB (sectionOf fo "scenarios") &&
  isObjB (diagOf (sectionOf fo "narrative")) &&
  guardedStrsField (sectionOf fo "narrative") "upside_conditions" &&
  guardedStrsField (sectionOf fo "narrative") "downside_risks" &&
  guardedScenariosList (objGetD (sectionOf fo "scenarios") "scenarios" (.arr []))

/-- The underlying dict of a JSON value known to be a dict (used to
state properties without existential quantifiers). -/
def asObj : JVal → Dict
  | .obj kvs => kvs
  | _ => []

/-- Spec §3: every canonical key is present in the output, including the
nested ones the presentation layer reads. -/
def FullyShaped (out : JVal) : Prop :=
  (jpath out ["schema_version"]).isSome = true ∧
  (jpath out ["business_id"]).isSome = true ∧
  (jpath out ["window_weeks"]).isSome = true ∧
  (jpath out ["posture"]).isSome = true ∧
  (jpath out ["confidence"]).isSome = true ∧
  (jpath out ["headline"]).isSome = true ∧
  (jpath out ["signals", "demand"]).isSome = true ∧
  (jpath out ["signals", "capacity"]).isSome = true ∧
  (jpath out ["signals", "risk"]).isSome = true ∧
  (jpath out ["scenarios"]).isSome = true ∧
  (jpath out ["narrative", "summary"]).isSome = true ∧
  (jpath out ["narrative", "drivers"]).isSome = true ∧
  (jpath out ["explainability", "features"]).isSome = true ∧
  (jpath out ["diagnostics", "rules_fired"]).isSome = true ∧
  (jpath out ["diagnostics", "flags"]).isSome = true

/-! ### Helper lemmas -/

/-- Decompose a successful run of the adapter into its stages and the
literal shape of its output. -/
theorem adapt_cases (fo : Dict) (out : JVal)
    (h : adapt_internal_bundle_to_v1 fo = some out) :
    ∃ bid pst cnf cap summ drvs sl sd ft ru,
      resolveBusinessId fo (sectionOf fo "scenarios") (sectionOf fo "narrative")
        (sectionOf fo "demand") = some bid ∧
      resolvePosture (sectionOf fo "scenarios") (diagOf (sectionOf fo "narrative")) = some pst ∧
      resolveConfidence (sectionOf fo "narrative") (diagOf (sectionOf fo "narrative")) = some cnf ∧
      pyGet (diagOf (sectionOf fo "narrative")) "capacity_reality" = some cap ∧
      resolveSummary (sectionOf fo "narrative") = some summ ∧
      buildDrivers (sectionOf fo "narrative") = some drvs ∧
      pyGetD (sectionOf fo "scenarios") "scenarios" (.arr []) = some sl ∧
      scenarios_list_to_dict sl = some sd ∧
      computeFeats fo (sectionOf fo "demand") (sectionOf fo "capacity")
        (sectionOf fo "risk") = some ft ∧
      rulesFired (diagOf (sectionOf fo "narrative")) = some ru ∧
      out = .obj [
        ("schema_version", .str "eff_assessment_v1"),
        ("business_id", bid),
        ("window_weeks", dictGetD fo "window_weeks" (.num 8)),
        ("posture", pst),
        ("confidence", cnf),
        ("headline", .str (mkHeadline pst cap)),
        ("signals", .obj [("demand", sectionOf fo "demand"),
          ("capacity", sectionOf fo "capacity"), ("risk", sectionOf fo "risk")]),
        ("scenarios", .obj sd),
        ("narrative", .obj [("summary", summ), ("drivers", .arr drvs)]),
        ("explainability", .obj [("features", ft)]),
        ("diagnostics", .obj [("rules_fired", .arr ru), ("flags", .obj [])])] := by
  simp only [adapt_internal_bundle_to_v1, Option.bind_eq_some] at h
  obtain ⟨bid, hbid, pst, hpst, cnf, hcnf, cap, hcap, summ, hsumm, drvs, hdrvs,
    sl, hsl, sd, hsd, ft, hft, ru, hru, hout⟩ := h
  exact ⟨bid, pst, cnf, cap, summ, drvs, sl, sd, ft, ru, hbid, hpst, hcnf, hcap,
    hsumm, hdrvs, hsl, hsd, hft, hru, (Option.some.inj hout).symm⟩

/-- A successful `a or b` either took a truthy `a` or fell through. -/
theorem pyOr_eq_some {a b : Option JVal} {r : JVal} (h : pyOr a b = some r) :
    ∃ x, a = some x ∧
      ((truthy x = true ∧ r = x) ∨ (truthy x = false ∧ b = some r)) := by
  unfold pyOr at h
  rw [Option.bind_eq_some] at h
  obtain ⟨x, hx, hifx⟩ := h
  refine ⟨x, hx, ?_⟩
  by_cases ht : truthy x = true
  · rw [if_pos ht] at hifx
    exact Or.inl ⟨ht, (Option.some.inj hifx).symm⟩
  · rw [if_neg ht] at hifx
    exact Or.inr ⟨Bool.eq_false_iff.mpr ht, hifx⟩

/-- A `.get` that returned a value was done on a dict, and returned the
(total) lookup. -/
theorem pyGet_eq_some {v : JVal} {k : String} {x : JVal}
    (h : pyGet v k = some x) : isObjB v = true ∧ x = objGetD v k .null := by
  cases v <;>
    first
      | exact ⟨rfl, (Option.some.inj h).symm⟩
      | simp [pyGet, pyGetD] at h

/-- The `business_id` chain computes the spec's first-truthy rule over
its four candidate locations. -/
theorem resolveBusinessId_chain {fo : Dict} {so na de b : JVal}
    (h : resolveBusinessId fo so na de = some b) :
    b = firstTruthyD [dictGetD fo "business_id" .null,
      objGetD so "business_id" .null, objGetD na "business_id" .null,
      objGetD de "business_id" .null] (.str "—") := by
  unfold resolveBusinessId at h
  obtain ⟨x1, hx1, h1⟩ := pyOr_eq_some h
  obtain rfl : dictGetD fo "business_id" .null = x1 := Option.some.inj hx1
  rcases h1 with ⟨ht1, rfl⟩ | ⟨hf1, h⟩
  · simp [firstTruthyD, ht1]
  · obtain ⟨x2, hx2, h2⟩ := pyOr_eq_some h
    obtain ⟨-, rfl⟩ := pyGet_eq_some hx2
    rcases h2 with ⟨ht2, rfl⟩ | ⟨hf2, h⟩
    · simp [firstTruthyD, hf1, ht2]
    · obtain ⟨x3, hx3, h3⟩ := pyOr_eq_some h
      obtain ⟨-, rfl⟩ := pyGet_eq_some hx3
      rcases h3 with ⟨ht3, rfl⟩ | ⟨hf3, h⟩
      · simp [firstTruthyD, hf1, hf2, ht3]
      · obtain ⟨x4, hx4, h4⟩ := pyOr_eq_some h
        obtain ⟨-, rfl⟩ := pyGet_eq_some hx4
        rcases h4 with ⟨ht4, rfl⟩ | ⟨hf4, h⟩
        · simp [firstTruthyD, hf1, hf2, hf3, ht4]
        · obtain rfl : JVal.str "—" = b := Option.some.inj h
          simp [firstTruthyD, hf1, hf2, hf3, hf4]

/-- The features step either kept a non-empty structured dict verbatim or
extracted from the three `key_factors` fields. -/
theorem computeFeats_cases {fo : Dict} {d c r ft : JVal}
    (h : computeFeats fo d c r = some ft) :
    ((isObjB (dictGetD fo "features" .null) &&
        truthy (dictGetD fo "features" .null)) = true ∧
      ft = dictGetD fo "features" .null) ∨
    ((isObjB (dictGetD fo "features" .null) &&
        truthy (dictGetD fo "features" .null)) = false ∧
      ft = .obj (extract_features_from_text_lists
        [objGetD d "key_factors" .null, objGetD c "key_factors" .null,
         objGetD r "key_factors" .null])) := by
  unfold computeFeats at h
  by_cases hc : (isObjB (dictGetD fo "features" .null) &&
      truthy (dictGetD fo "features" .null)) = true
  · rw [if_pos hc] at h
    exact Or.inl ⟨hc, (Option.some.inj h).symm⟩
  · rw [if_neg hc] at h
    rw [Option.bind_eq_some] at h
    obtain ⟨kd, hkd, h⟩ := h
    rw [Option.bind_eq_some] at h
    obtain ⟨kc, hkc, h⟩ := h
    rw [Option.bind_eq_some] at h
    obtain ⟨kr, hkr, h⟩ := h
    obtain ⟨-, rfl⟩ := pyGet_eq_some hkd
    obtain ⟨-, rfl⟩ := pyGet_eq_some hkc
    obtain ⟨-, rfl⟩ := pyGet_eq_some hkr
    exact Or.inr ⟨Bool.eq_false_iff.mpr hc, (Option.some.inj h).symm⟩

/-- `.get` on a dict value returns. -/
theorem pyGetD_of_obj {v : JVal} (k : String) (d : JVal)
    (h : isObjB v = true) : pyGetD v k d = some (objGetD v k d) := by
  cases v <;> first | rfl | simp [isObjB] at h

/-- `.get` (single-argument form) on a dict value returns. -/
theorem pyGet_of_obj {v : JVal} (k : String) (h : isObjB v = true) :
    pyGet v k = some (objGetD v k .null) :=
  pyGetD_of_obj k .null h

/-- `a or b` returns when both sides do. -/
theorem pyOr_isSome {a b : Option JVal} (ha : a.isSome = true)
    (hb : b.isSome = true) : (pyOr a b).isSome = true := by
  obtain ⟨x, rfl⟩ := Option.isSome_iff_exists.mp ha
  unfold pyOr
  rw [Option.some_bind]
  by_cases ht : truthy x = true
  · rw [if_pos ht]; rfl
  · rw [if_neg ht]; exact hb

/-- The `business_id` chain returns when its three `.get` targets are
dicts. -/
theorem resolveBusinessId_isSome (fo : Dict) {so na de : JVal}
    (hso : isObjB so = true) (hna : isObjB na = true)
    (hde : isObjB de = true) :
    (resolveBusinessId fo so na de).isSome = true := by
  unfold resolveBusinessId
  refine pyOr_isSome rfl (pyOr_isSome ?_ (pyOr_isSome ?_ (pyOr_isSome ?_ rfl)))
  · rw [pyGet_of_obj _ hso]; rfl
  · rw [pyGet_of_obj _ hna]; rfl
  · rw [pyGet_of_obj _ hde]; rfl

/-- The `posture` chain returns when its `.get` targets are dicts. -/
theorem resolvePosture_isSome {so diag : JVal} (hso : isObjB so = true)
    (hdiag : isObjB diag = true) : (resolvePosture so diag).isSome = true := by
  unfold resolvePosture
  refine pyOr_isSome ?_ (pyOr_isSome ?_ rfl)
  · rw [pyGet_of_obj _ hso]; rfl
  · rw [pyGet_of_obj _ hdiag]; rfl

/-- The `confidence` chain returns when its `.get` targets are dicts. -/
theorem resolveConfidence_isSome {na diag : JVal} (hna : isObjB na = true)
    (hdiag : isObjB diag = true) :
    (resolveConfidence na diag).isSome = true := by
  unfold resolveConfidence
  refine pyOr_isSome ?_ (pyOr_isSome ?_ rfl)
  · rw [pyGet_of_obj _ hna]; rfl
  · rw [pyGet_of_obj _ hdiag]; rfl

/-- The `summary` chain returns when the narrative is a dict. -/
theorem resolveSummary_isSome {na : JVal} (hna : isObjB na = true) :
    (resolveSummary na).isSome = true := by
  unfold resolveSummary
  refine pyOr_isSome ?_ (pyOr_isSome ?_ rfl) <;> (rw [pyGet_of_obj _ hna]; rfl)

/-- A string-typed value is literally a string constructor. -/
theorem isStrB_exists {v : JVal} (h : isStrB v = true) : ∃ s, v = .str s := by
  cases v <;> simp [isStrB] at h
  exact ⟨_, rfl⟩

/-- `join` returns on an all-string list. -/
theorem strList_isSome {xs : List JVal} (h : xs.all isStrB = true) :
    (strList xs).isSome = true := by
  induction xs with
  | nil => rfl
  | cons x rest ih =>
      rw [List.all_cons, Bool.and_eq_true] at h
      obtain ⟨hx, hrest⟩ := h
      obtain ⟨s, rfl⟩ := isStrB_exists hx
      obtain ⟨l, hl⟩ := Option.isSome_iff_exists.mp (ih hrest)
      simp [strList, hl]

/-- One driver entry returns under the string-list guard. -/
theorem driverEntry_isSome (label : String) {v : JVal}
    (h : allStrsOrNotList v = true) : (driverEntry label v).isSome = true := by
  cases v with
  | arr xs =>
      simp only [allStrsOrNotList] at h
      simp only [driverEntry]
      by_cases he : xs.isEmpty = true
      · rw [if_pos he]; rfl
      · rw [if_neg he]
        obtain ⟨l, hl⟩ := Option.isSome_iff_exists.mp (strList_isSome h)
        simp [joinStrs, hl]
  | null => rfl
  | bool b => rfl
  | num q => rfl
  | str s => rfl
  | obj kvs => rfl

/-- The drivers construction returns under the string-list guards. -/
theorem buildDrivers_isSome {na : JVal} (hna : isObjB na = true)
    (hu : guardedStrsField na "upside_conditions" = true)
    (hd : guardedStrsField na "downside_risks" = true) :
    (buildDrivers na).isSome = true := by
  unfold buildDrivers
  unfold guardedStrsField at hu hd
  rw [pyGet_of_obj _ hna, Option.some_bind]
  obtain ⟨up, hup⟩ :=
    Option.isSome_iff_exists.mp (driverEntry_isSome "Upside conditions: " hu)
  rw [hup, Option.some_bind, pyGet_of_obj _ hna, Option.some_bind]
  obtain ⟨down, hdn⟩ :=
    Option.isSome_iff_exists.mp (driverEntry_isSome "Downside risks: " hd)
  rw [hdn, Option.some_bind]
  rfl

/-- One scenario-loop step returns under the string-name guard. -/
theorem scenarioStep_isSome (acc : Dict) {s : JVal}
    (h : scenarioNameOk s = true) : (scenarioStep acc s).isSome = true := by
  cases s with
  | obj kvs =>
      simp only [scenarioNameOk] at h
      obtain ⟨raw, hv⟩ := isStrB_exists h
      simp only [scenarioStep]
      rw [hv]
      by_cases hn : (asciiLower (pyStrip raw) == "") = true
      · simp [hn]
      · simp [hn]
  | null => rfl
  | bool b => rfl
  | num q => rfl
  | str t => rfl
  | arr l => rfl

/-- The scenario loop returns under the string-name guard. -/
theorem scenariosGo_isSome {xs : List JVal} (acc : Dict)
    (h : xs.all scenarioNameOk = true) :
    (scenariosGo acc xs).isSome = true := by
  induction xs generalizing acc with
  | nil => rfl
  | cons s rest ih =>
      rw [List.all_cons, Bool.and_eq_true] at h
      obtain ⟨hs, hrest⟩ := h
      obtain ⟨acc2, hacc2⟩ :=
        Option.isSome_iff_exists.mp (scenarioStep_isSome acc hs)
      show ((scenarioStep acc s).bind fun acc2 => scenariosGo acc2 rest).isSome = true
      rw [hacc2, Option.some_bind]
      exact ih acc2 hrest

/-- `_scenarios_list_to_dict` returns under the string-name guard. -/
theorem scenarios_ltd_isSome {sl : JVal} (h : guardedScenariosList sl = true) :
    (scenarios_list_to_dict sl).isSome = true := by
  unfold guardedScenariosList at h
  cases sl with
  | arr xs => exact scenariosGo_isSome [] h
  | null => rfl
  | bool b => rfl
  | num q => rfl
  | str s => rfl
  | obj kvs => rfl

/-- The features step returns when the three sections are dicts. -/
theorem computeFeats_isSome (fo : Dict) {d c r : JVal}
    (hd : isObjB d = true) (hc : isObjB c = true) (hr : isObjB r = true) :
    (computeFeats fo d c r).isSome = true := by
  unfold computeFeats
  by_cases hft : (isObjB (dictGetD fo "features" .null) &&
      truthy (dictGetD fo "features" .null)) = true
  · rw [if_pos hft]; rfl
  · rw [if_neg hft, pyGet_of_obj _ hd, Option.some_bind,
        pyGet_of_obj _ hc, Option.some_bind, pyGet_of_obj _ hr,
        Option.some_bind]
    rfl

/-- The rules-fired step returns when the diagnostics is a dict. -/
theorem rulesFired_isSome {diag : JVal} (h : isObjB diag = true) :
    (rulesFired diag).isSome = true := by
  unfold rulesFired
  rw [pyGet_of_obj _ h, Option.some_bind, pyGet_of_obj _ h, Option.some_bind,
      pyGet_of_obj _ h, Option.some_bind, pyGet_of_obj _ h, Option.some_bind]
  rfl

/-- One loop step agrees with the spec-side step under the string-name
guard. -/
theorem scenarioStep_eq_spec (acc : Dict) {s : JVal}
    (h : scenarioNameOk s = true) :
    scenarioStep acc s = some (scenarioSpecStep acc s) := by
  cases s with
  | obj kvs =>
      simp only [scenarioNameOk] at h
      obtain ⟨raw, hv⟩ := isStrB_exists h
      simp only [scenarioStep, scenarioSpecStep]
      rw [hv]
      by_cases hn : (asciiLower (pyStrip raw) == "") = true
      · simp [hn]
      · simp [hn]
  | null => rfl
  | bool b => rfl
  | num q => rfl
  | str t => rfl
  | arr l => rfl

/-- The loop agrees with the spec-side fold under the string-name
guard. -/
theorem scenariosGo_eq_spec {xs : List JVal} (acc : Dict)
    (h : xs.all scenarioNameOk = true) :
    scenariosGo acc xs = some (xs.foldl scenarioSpecStep acc) := by
  induction xs generalizing acc with
  | nil => rfl
  | cons s rest ih =>
      rw [List.all_cons, Bool.and_eq_true] at h
      obtain ⟨hs, hrest⟩ := h
      show ((scenarioStep acc s).bind fun acc2 => scenariosGo acc2 rest) =
        some ((s :: rest).foldl scenarioSpecStep acc)
      rw [scenarioStep_eq_spec acc hs, Option.some_bind, List.foldl_cons]
      exact ih _ hrest

/-- The adapter's output always starts with the canonical schema marker,
so `is_v1` accepts it. -/
theorem adapt_output_is_v1 (fo : Dict) (out : JVal)
    (h : adapt_internal_bundle_to_v1 fo = some out) :
    isObjB out = true ∧ is_v1 (asObj out) = true := by
  obtain ⟨bid, pst, cnf, cap, summ, drvs, sl, sd, ft, ru,
    -, -, -, -, -, -, -, -, -, -, rfl⟩ := adapt_cases fo out h
  exact ⟨rfl, rfl⟩

/-- Under `adaptGuard`, the adapter returns normally. -/
theorem adapt_isSome_of_guard {fo : Dict} (h : adaptGuard fo = true) :
    (adapt_internal_bundle_to_v1 fo).isSome = true := by
  unfold adaptGuard at h
  simp only [Bool.and_eq_true] at h
  obtain ⟨⟨⟨⟨⟨⟨⟨⟨hdem, hcap⟩, hrisk⟩, hnarr⟩, hscen⟩, hdiag⟩, hup⟩, hdown⟩, hsl⟩ := h
  obtain ⟨bid, hbid⟩ := Option.isSome_iff_exists.mp
    (resolveBusinessId_isSome fo hscen hnarr hdem)
  obtain ⟨pst, hpst⟩ := Option.isSome_iff_exists.mp
    (resolvePosture_isSome hscen hdiag)
  obtain ⟨cnf, hcnf⟩ := Option.isSome_iff_exists.mp
    (resolveConfidence_isSome hnarr hdiag)
  have hcapr := pyGet_of_obj (v := diagOf (sectionOf fo "narrative"))
    "capacity_reality" hdiag
  obtain ⟨summ, hsumm⟩ := Option.isSome_iff_exists.mp
    (resolveSummary_isSome hnarr)
  obtain ⟨drv, hdrv⟩ := Option.isSome_iff_exists.mp
    (buildDrivers_isSome hnarr hup hdown)
  have hslv := pyGetD_of_obj (v := sectionOf fo "scenarios")
    "scenarios" (.arr []) hscen
  obtain ⟨sd, hsd⟩ := Option.isSome_iff_exists.mp (scenarios_ltd_isSome hsl)
  obtain ⟨ft, hft⟩ := Option.isSome_iff_exists.mp
    (computeFeats_isSome fo hdem hcap hrisk)
  obtain ⟨ru, hru⟩ := Option.isSome_iff_exists.mp (rulesFired_isSome hdiag)
  simp only [adapt_internal_bundle_to_v1]
  rw [hbid, Option.some_bind, hpst, Option.some_bind, hcnf, Option.some_bind,
      hcapr, Option.some_bind, hsumm, Option.some_bind, hdrv, Option.some_bind,
      hslv, Option.some_bind, hsd, Option.some_bind, hft, Option.some_bind,
      hru, Option.some_bind]
  rfl

/-! ### Claim theorems -/

/-- Claim C1, counterexample: `adapt_internal_bundle_to_v1` does not
return normally on every well-formed mapping input.  On the mapping
`\x7b"demand": 5\x7d` — whose `demand` value is a truthy non-mapping —
the `business_id` fallback chain reaches `demand.get("business_id")` and
Python raises `AttributeError` (modelled as `none`). -/
theorem adapt_raises_on_nonmapping_section :
    adapt_internal_bundle_to_v1 [("demand", JVal.num 5)] = none := rfl

/-- Claim C1 (amended): the adapter returns normally — substituting
empty/default values for absent, falsy, or wrong-typed-list substructure
and skipping non-mapping scenario entries — for every well-formed mapping
input, including the empty mapping, provided additionally that every
truthy top-level section value (`demand`, `capacity`, `risk`,
`narrative`, `scenarios`) is a mapping, a truthy
`narrative.diagnostics` is a mapping, list-typed
`upside_conditions`/`downside_risks` hold only strings, and every
scenario record's truthy `scenario` field is a string (`adaptGuard`). -/
theorem adapt_total_under_guard :
    (∀ fo : Dict, adaptGuard fo = true →
      (adapt_internal_bundle_to_v1 fo).isSome = true) ∧
    adaptGuard ([] : Dict) = true ∧
    (adapt_internal_bundle_to_v1 ([] : Dict)).isSome = true :=
  ⟨fun _ h => adapt_isSome_of_guard h, rfl, rfl⟩

/-- Witness for the C1 theorem at a concrete guarded input. -/
theorem adapt_total_under_guard_witness :
    adaptGuard [("demand", JVal.obj [("business_id", JVal.str "D1")])] = true ∧
    (adapt_internal_bundle_to_v1
      [("demand", JVal.obj [("business_id", JVal.str "D1")])]).isSome = true :=
  ⟨rfl, adapt_total_under_guard.1 _ rfl⟩

/-- Claim C2: whenever the adapter returns, its output contains every
canonical top-level key — `schema_version`, `business_id`,
`window_weeks`, `posture`, `confidence`, `headline`, `signals` with
`demand`/`capacity`/`risk`, `scenarios`, `narrative` with `summary` and
`drivers`, `explainability.features`, `diagnostics.rules_fired` and
`diagnostics.flags` — however sparse the input was. -/
theorem adapt_output_all_keys (fo : Dict) (out : JVal)
    (h : adapt_internal_bundle_to_v1 fo = some out) : FullyShaped out := by
  obtain ⟨bid, pst, cnf, cap, summ, drvs, sl, sd, ft, ru,
    -, -, -, -, -, -, -, -, -, -, rfl⟩ := adapt_cases fo out h
  exact ⟨rfl, rfl, rfl, rfl, rfl, rfl, rfl, rfl, rfl, rfl, rfl, rfl, rfl,
    rfl, rfl⟩

/-- Witness for the C2 theorem at the empty mapping. -/
theorem adapt_output_all_keys_witness :
    adapt_internal_bundle_to_v1 ([] : Dict) =
      some ((adapt_internal_bundle_to_v1 ([] : Dict)).getD .null) ∧
    FullyShaped ((adapt_internal_bundle_to_v1 ([] : Dict)).getD .null) :=
  ⟨rfl, adapt_output_all_keys [] _ rfl⟩

/-- Claim C3: for every document whose `schema_version` equals
`"eff_assessment_v1"`, the entry point `to_v1` returns it unchanged. -/
theorem to_v1_identity_on_canonical (d : Dict) (h : is_v1 d = true) :
    to_v1 d = some (.obj d) := by
  unfold to_v1
  rw [if_pos h]

/-- Witness for the C3 theorem on a concrete canonical document. -/
theorem to_v1_identity_on_canonical_witness :
    is_v1 [("schema_version", JVal.str "eff_assessment_v1"),
      ("posture", JVal.str "Strong")] = true ∧
    to_v1 [("schema_version", JVal.str "eff_assessment_v1"),
      ("posture", JVal.str "Strong")] =
      some (.obj [("schema_version", JVal.str "eff_assessment_v1"),
        ("posture", JVal.str "Strong")]) :=
  ⟨rfl, to_v1_identity_on_canonical _ rfl⟩

/-- Claim C4: per text item the two boolean surface forms are attempted
first, then the three numeric surface forms in the order
backtick-name-is-number, name-colon-number, name-is-number — each
pattern contributing at most its first (leftmost) structural match in the
text, all applied — and across items a later match for the same
normalized name overwrites an earlier one (last-wins in input order,
boolean-before-numeric within one item).  The equation exhibits the
application order; the examples exhibit last-wins across items in both
input orders, numeric overwriting a same-name boolean within one item,
and the three numeric patterns matching independently in one item. -/
theorem extraction_pattern_order :
    (∀ (feats : Dict) (s : String),
      processItem feats s =
        applyPattern (applyPattern (applyPattern (applyPattern
          (applyPattern feats b1At (stripChars s.data))
          b2At (stripChars s.data)) p1At (stripChars s.data))
          p2At (stripChars s.data)) p3At (stripChars s.data)) ∧
    extract_features_from_text_lists [.str "x: 1", .str "x is 2"] =
      [("x", JVal.num 2)] ∧
    extract_features_from_text_lists [.str "x is 2", .str "x: 1"] =
      [("x", JVal.num 1)] ∧
    extract_features_from_text_lists [.str "flag is true and flag: 3"] =
      [("flag", JVal.num 3)] ∧
    extract_features_from_text_lists [.str "`a` is 1 and b: 2 and c is 3"] =
      [("a", JVal.num 1), ("b", JVal.num 2), ("c", JVal.num 3)] :=
  ⟨fun _ _ => rfl, rfl, rfl, rfl, rfl⟩

/-- Claim C5: when the input's `features` value is a non-empty mapping it
becomes `explainability.features` verbatim (no extraction), and otherwise
— absent, empty, or wrong-typed — the features are extracted from the
demand, capacity and risk `key_factors` texts.  The examples show a
structured mapping shadowing extractable text, and extraction under an
absent, empty, and wrong-typed `features`. -/
theorem features_precedence :
    (∀ (fo : Dict) (out : JVal), adapt_internal_bundle_to_v1 fo = some out →
      ((isObjB (dictGetD fo "features" .null) &&
          truthy (dictGetD fo "features" .null)) = true →
        jpath out ["explainability", "features"] =
          some (dictGetD fo "features" .null)) ∧
      ((isObjB (dictGetD fo "features" .null) &&
          truthy (dictGetD fo "features" .null)) = false →
        jpath out ["explainability", "features"] =
          some (.obj (extract_features_from_text_lists
            [objGetD (sectionOf fo "demand") "key_factors" .null,
             objGetD (sectionOf fo "capacity") "key_factors" .null,
             objGetD (sectionOf fo "risk") "key_factors" .null])))) ∧
    adaptPath [("features", .obj [("a", .num 1)]),
      ("demand", .obj [("key_factors", .arr [.str "b: 2"])])]
      ["explainability", "features"] = some (.obj [("a", .num 1)]) ∧
    adaptPath [("demand", .obj [("key_factors", .arr [.str "b: 2"])])]
      ["explainability", "features"] = some (.obj [("b", .num 2)]) ∧
    adaptPath [("features", .obj []),
      ("demand", .obj [("key_factors", .arr [.str "b: 2"])])]
      ["explainability", "features"] = some (.obj [("b", .num 2)]) ∧
    adaptPath [("features", .str "nope"),
      ("demand", .obj [("key_factors", .arr [.str "b: 2"])])]
      ["explainability", "features"] = some (.obj [("b", .num 2)]) := by
  refine ⟨?_, rfl, rfl, rfl, rfl⟩
  intro fo out h
  obtain ⟨bid, pst, cnf, cap, summ, drvs, sl, sd, ft, ru,
    -, -, -, -, -, -, -, -, hft, -, rfl⟩ := adapt_cases fo out h
  rcases computeFeats_cases hft with ⟨hc, hfteq⟩ | ⟨hc, hfteq⟩
  · refine ⟨fun _ => ?_, fun hcf => ?_⟩
    · rw [← hfteq]; rfl
    · rw [hc] at hcf; exact Bool.noConfusion hcf
  · refine ⟨fun hct => ?_, fun _ => ?_⟩
    · rw [hc] at hct; exact Bool.noConfusion hct
    · rw [← hfteq]; rfl

/-- Witness for the C5 theorem at a concrete input with a structured
features mapping. -/
theorem features_precedence_witness :
    adapt_internal_bundle_to_v1 [("features", JVal.obj [("a", JVal.num 1)])] =
      some ((adapt_internal_bundle_to_v1
        [("features", JVal.obj [("a", JVal.num 1)])]).getD .null) ∧
    (isObjB (dictGetD [("features", JVal.obj [("a", JVal.num 1)])] "features" .null) &&
      truthy (dictGetD [("features", JVal.obj [("a", JVal.num 1)])] "features" .null)) = true ∧
    jpath ((adapt_internal_bundle_to_v1
        [("features", JVal.obj [("a", JVal.num 1)])]).getD .null)
      ["explainability", "features"] =
      some (dictGetD [("features", JVal.obj [("a", JVal.num 1)])] "features" .null) :=
  ⟨rfl, rfl,
    (features_precedence.1 [("features", JVal.obj [("a", JVal.num 1)])]
      ((adapt_internal_bundle_to_v1
        [("features", JVal.obj [("a", JVal.num 1)])]).getD .null) rfl).1 rfl⟩

/-- Claim C6: scenario list-to-map conversion iterates records in input
order, skips non-mapping entries, keys each kept record by its
lower-cased trimmed `scenario` name, drops records whose name is empty
after trimming, and on duplicate normalized names the later record
overwrites the earlier with no error — proven as agreement with the
spec-side fold `scenariosSpec` whenever each record's name is a string
or falsy, plus the claim's Base/BASE example (exactly one `"base"` entry
with direction `"Down"`) and a skip/trim/drop example. -/
theorem scenarios_conversion :
    (∀ xs : List JVal, xs.all scenarioNameOk = true →
      scenarios_list_to_dict (.arr xs) = some (scenariosSpec xs)) ∧
    scenarios_list_to_dict (.arr
      [.obj [("scenario", .str "Base"), ("earnings_direction", .str "Up")],
       .obj [("scenario", .str "BASE"), ("earnings_direction", .str "Down")]]) =
      some [("base", .obj [("earnings_direction", .str "Down"),
        ("confidence", .str "—"), ("primary_drivers", .arr []),
        ("explanation", .str "")])] ∧
    scenarios_list_to_dict (.arr [.num 7, .obj [("scenario", .str "  X ")],
      .obj [("scenario", .str "")]]) =
      some [("x", .obj [("earnings_direction", .str "—"),
        ("confidence", .str "—"), ("primary_drivers", .arr []),
        ("explanation", .str "")])] := by
  refine ⟨?_, rfl, rfl⟩
  intro xs h
  show scenariosGo [] xs = some (scenariosSpec xs)
  exact scenariosGo_eq_spec [] h

/-- Witness for the C6 theorem at the claim's duplicate-name list. -/
theorem scenarios_conversion_witness :
    ([JVal.obj [("scenario", JVal.str "Base")],
      JVal.obj [("scenario", JVal.str "BASE")]].all scenarioNameOk) = true ∧
    scenarios_list_to_dict (.arr [JVal.obj [("scenario", JVal.str "Base")],
      JVal.obj [("scenario", JVal.str "BASE")]]) =
      some (scenariosSpec [JVal.obj [("scenario", JVal.str "Base")],
        JVal.obj [("scenario", JVal.str "BASE")]]) :=
  ⟨rfl, scenarios_conversion.1 _ rfl⟩

/-- Claim C7: the output `business_id` is the first present-and-truthy
candidate among top-level, scenarios-section, narrative-section and
demand-section `business_id`, defaulting to `"—"`; in particular a value
set only in the narrative section is used, and the top level wins over
the narrative section. -/
theorem business_id_fallback_chain :
    (∀ (fo : Dict) (out : JVal), adapt_internal_bundle_to_v1 fo = some out →
      jpath out ["business_id"] = some (firstTruthyD
        [dictGetD fo "business_id" .null,
         objGetD (sectionOf fo "scenarios") "business_id" .null,
         objGetD (sectionOf fo "narrative") "business_id" .null,
         objGetD (sectionOf fo "demand") "business_id" .null] (.str "—"))) ∧
    adaptPath [("narrative", .obj [("business_id", .str "NARR-7")])]
      ["business_id"] = some (.str "NARR-7") ∧
    adaptPath [("business_id", .str "TOP-1"),
      ("narrative", .obj [("business_id", .str "NARR-7")])]
      ["business_id"] = some (.str "TOP-1") ∧
    adaptPath ([] : Dict) ["business_id"] = some (.str "—") := by
  refine ⟨?_, rfl, rfl, rfl⟩
  intro fo out h
  obtain ⟨bid, pst, cnf, cap, summ, drvs, sl, sd, ft, ru,
    hbid, -, -, -, -, -, -, -, -, -, rfl⟩ := adapt_cases fo out h
  rw [← resolveBusinessId_chain hbid]
  rfl

/-- Witness for the C7 theorem at the empty mapping. -/
theorem business_id_fallback_chain_witness :
    adapt_internal_bundle_to_v1 ([] : Dict) =
      some ((adapt_internal_bundle_to_v1 ([] : Dict)).getD .null) ∧
    jpath ((adapt_internal_bundle_to_v1 ([] : Dict)).getD .null)
      ["business_id"] = some (firstTruthyD
        [dictGetD ([] : Dict) "business_id" .null,
         objGetD (sectionOf ([] : Dict) "scenarios") "business_id" .null,
         objGetD (sectionOf ([] : Dict) "narrative") "business_id" .null,
         objGetD (sectionOf ([] : Dict) "demand") "business_id" .null]
        (.str "—")) :=
  ⟨rfl, business_id_fallback_chain.1 [] _ rfl⟩

/-- Claim C8, counterexample: the trailing clause is gated on the
truthiness of `capacity_reality`, not its presence.  With
`capacity_reality` present but equal to `""`, the headline is just
`"Strong."` — not the `"Strong. Capacity reality: ."` the claim's
"present adds the clause" rule demands. -/
theorem headline_presence_cex :
    adaptPath [("scenarios", .obj [("posture", .str "Strong")]),
      ("narrative", .obj [("diagnostics",
        .obj [("capacity_reality", .str "")])])]
      ["headline"] = some (.str "Strong.") ∧
    jpath (.obj [("scenarios", .obj [("posture", .str "Strong")]),
      ("narrative", .obj [("diagnostics",
        .obj [("capacity_reality", .str "")])])])
      ["narrative", "diagnostics", "capacity_reality"] = some (.str "") ∧
    ("Strong." : String) ≠ "Strong. Capacity reality: ." :=
  ⟨rfl, rfl, by decide⟩

/-- Claim C8 (amended): the output headline equals the posture followed
by a period and, if the nested `narrative.diagnostics.capacity_reality`
is present AND truthy, additionally the trailing clause
`" Capacity reality: <value>."` (see `mkHeadline`); posture `"Strong"`
with `capacity_reality` `"constrained"` yields
`"Strong. Capacity reality: constrained."` and an absent
`capacity_reality` yields `"Strong."`. -/
theorem headline_composition :
    (∀ (fo : Dict) (out : JVal), adapt_internal_bundle_to_v1 fo = some out →
      jpath out ["headline"] = some (.str (mkHeadline
        ((resolvePosture (sectionOf fo "scenarios")
          (diagOf (sectionOf fo "narrative"))).getD .null)
        ((pyGet (diagOf (sectionOf fo "narrative"))
          "capacity_reality").getD .null)))) ∧
    adaptPath [("scenarios", .obj [("posture", .str "Strong")]),
      ("narrative", .obj [("diagnostics",
        .obj [("capacity_reality", .str "constrained")])])]
      ["headline"] = some (.str "Strong. Capacity reality: constrained.") ∧
    adaptPath [("scenarios", .obj [("posture", .str "Strong")])]
      ["headline"] = some (.str "Strong.") := by
  refine ⟨?_, rfl, rfl⟩
  intro fo out h
  obtain ⟨bid, pst, cnf, cap, summ, drvs, sl, sd, ft, ru,
    -, hpst, -, hcap, -, -, -, -, -, -, rfl⟩ := adapt_cases fo out h
  rw [hpst, hcap]
  rfl

/-- Witness for the C8 theorem at the empty mapping. -/
theorem headline_composition_witness :
    adapt_internal_bundle_to_v1 ([] : Dict) =
      some ((adapt_internal_bundle_to_v1 ([] : Dict)).getD .null) ∧
    jpath ((adapt_internal_bundle_to_v1 ([] : Dict)).getD .null)
      ["headline"] = some (.str (mkHeadline
        ((resolvePosture (sectionOf ([] : Dict) "scenarios")
          (diagOf (sectionOf ([] : Dict) "narrative"))).getD .null)
        ((pyGet (diagOf (sectionOf ([] : Dict) "narrative"))
          "capacity_reality").getD .null))) :=
  ⟨rfl, headline_composition.1 [] _ rfl⟩

/-- Claim C9: every adapter output carries
`schema_version = "eff_assessment_v1"` so the detector `is_v1` accepts
it, and consequently `to_v1` is idempotent on every mapping on which it
returns: feeding its output back in returns it unchanged. -/
theorem to_v1_idempotent :
    (∀ (fo : Dict) (out : JVal), adapt_internal_bundle_to_v1 fo = some out →
      isObjB out = true ∧ is_v1 (asObj out) = true) ∧
    (∀ (p : Dict) (r : JVal), to_v1 p = some r →
      isObjB r = true ∧ to_v1 (asObj r) = some r) := by
  refine ⟨fun fo out h => adapt_output_is_v1 fo out h, ?_⟩
  intro p r h
  unfold to_v1 at h
  by_cases hv : is_v1 p = true
  · rw [if_pos hv] at h
    obtain rfl : JVal.obj p = r := Option.some.inj h
    refine ⟨rfl, ?_⟩
    show to_v1 p = some (.obj p)
    unfold to_v1
    rw [if_pos hv]
  · rw [if_neg hv] at h
    obtain ⟨ho, hm⟩ := adapt_output_is_v1 p r h
    obtain ⟨kvs, rfl⟩ : ∃ kvs, r = .obj kvs := by
      cases r with
      | obj kvs => exact ⟨kvs, rfl⟩
      | null => simp [isObjB] at ho
      | bool b => simp [isObjB] at ho
      | num q => simp [isObjB] at ho
      | str s => simp [isObjB] at ho
      | arr l => simp [isObjB] at ho
    refine ⟨rfl, ?_⟩
    show to_v1 kvs = some (.obj kvs)
    unfold to_v1
    have hm' : is_v1 kvs = true := hm
    rw [if_pos hm']

/-- Witness for the C9 theorem at the empty mapping. -/
theorem to_v1_idempotent_witness :
    adapt_internal_bundle_to_v1 ([] : Dict) =
      some ((adapt_internal_bundle_to_v1 ([] : Dict)).getD .null) ∧
    is_v1 (asObj ((adapt_internal_bundle_to_v1 ([] : Dict)).getD .null)) = true ∧
    to_v1 (asObj ((to_v1 ([] : Dict)).getD .null)) =
      some ((to_v1 ([] : Dict)).getD .null) :=
  ⟨rfl, (to_v1_idempotent.1 [] _ rfl).2, (to_v1_idempotent.2 [] _ rfl).2⟩

/-- Claim C10: `window_weeks` is a plain `.get` with default `8` — the
default applies only when the key is absent, and a present value passes
through unchanged even when it is null, zero, or not an integer. -/
theorem window_weeks_plain_lookup :
    (∀ (fo : Dict) (out : JVal), adapt_internal_bundle_to_v1 fo = some out →
      jpath out ["window_weeks"] = some (dictGetD fo "window_weeks" (.num 8))) ∧
    adaptPath [("window_weeks", .null)] ["window_weeks"] = some .null ∧
    adaptPath [("window_weeks", .num 0)] ["window_weeks"] = some (.num 0) ∧
    adaptPath [("window_weeks", .str "six")] ["window_weeks"] =
      some (.str "six") ∧
    adaptPath ([] : Dict) ["window_weeks"] = some (.num 8) := by
  refine ⟨?_, rfl, rfl, rfl, rfl⟩
  intro fo out h
  obtain ⟨bid, pst, cnf, cap, summ, drvs, sl, sd, ft, ru,
    -, -, -, -, -, -, -, -, -, -, rfl⟩ := adapt_cases fo out h
  rfl

/-- Witness for the C10 theorem at a present-null `window_weeks`. -/
theorem window_weeks_plain_lookup_witness :
    adapt_internal_bundle_to_v1 [("window_weeks", JVal.null)] =
      some ((adapt_internal_bundle_to_v1 [("window_weeks", JVal.null)]).getD .null) ∧
    jpath ((adapt_internal_bundle_to_v1 [("window_weeks", JVal.null)]).getD .null)
      ["window_weeks"] =
      some (dictGetD [("window_weeks", JVal.null)] "window_weeks" (.num 8)) :=
  ⟨rfl, window_weeks_plain_lookup.1 _ _ rfl⟩

end EffDemo
